import Mathlib

/-!
Verification of the ShiftLang capture–translate–replace pipeline.

Python data is embedded shallowly:
* a Python `str` is a `List Nat` of Unicode code points (`pyStr` converts a
  Lean string literal); string order, `strip`, `lower` (for the ASCII
  identifiers and texts the program handles) are defined below;
* the script table `LANGUAGE_UNICODE_RANGES` keeps the exact shape of the
  Python dict literal: an entry is a list of elements, each element either a
  2-tuple of strings or a bare string (the file mixes both shapes), and tuple
  unpacking of a bare string succeeds only when the string has length 2,
  exactly as in CPython;
* fallible code returns `Except PyErr`.
-/

/-- A Python string as its list of Unicode code points. -/
def pyStr (s : String) : List Nat := s.data.map Char.toNat

/-- Python `str.lower` for one code point, on the ASCII range (the language
identifiers in the config and tables are ASCII, where CPython's `lower`
coincides with this map). -/
def pyLowerChar (n : Nat) : Nat := if 65 ≤ n ∧ n ≤ 90 then n + 32 else n

/-- Python `str.lower` on a string (ASCII model, see `pyLowerChar`). -/
def pyLower (l : List Nat) : List Nat := l.map pyLowerChar

/-- Python `str.isspace` for one code point (the set CPython's default
`str.strip` removes). -/
def pyIsSpace (n : Nat) : Bool :=
  (9 ≤ n && n ≤ 13) || (28 ≤ n && n ≤ 32) || n == 133 || n == 160 || n == 5760 ||
  (8192 ≤ n && n ≤ 8202) || n == 8232 || n == 8233 || n == 8239 || n == 8287 || n == 12288

/-- Drop code points satisfying `p` from both ends (Python `str.strip(chars)`). -/
def pyStripIf (p : Nat → Bool) (l : List Nat) : List Nat :=
  ((l.dropWhile p).reverse.dropWhile p).reverse

/-- Python `str.strip()` (whitespace from both ends). -/
def pyStrip (l : List Nat) : List Nat := pyStripIf pyIsSpace l

/-- Python lexicographic `<=` on strings. -/
def pyStrLe : List Nat → List Nat → Bool
  | [], _ => true
  | _ :: _, [] => false
  | a :: as, b :: bs => if a < b then true else if b < a then false else pyStrLe as bs

/-- Exceptions the embedded code can raise. -/
inductive PyErr
  | valueError      -- tuple-unpacking failure
  | providerError   -- an exception raised by a translation backend
  deriving DecidableEq, Repr

/-- One element of a `LANGUAGE_UNICODE_RANGES` entry: either a `(lo, hi)`
tuple of Python strings, or a bare Python string (the malformed entries). -/
inductive RangeElem
  | tup (lo hi : List Nat)
  | bare (s : List Nat)
  deriving DecidableEq, Repr

/-- Python `for lo, hi in ranges` unpacking of one element: a tuple gives its
components; a bare string unpacks into its characters only when it has
exactly two, otherwise `ValueError`. -/
def unpackElem : RangeElem → Except PyErr (List Nat × List Nat)
  | .tup lo hi => .ok (lo, hi)
  | .bare s =>
    match s with
    | [a, b] => .ok ([a], [b])
    | _ => .error .valueError

/-- The inner loop of `detect_is_source_language`: scan the range elements for
one character `c` (`lo <= ch <= hi` with Python string comparison). -/
def scanChar (c : Nat) : List RangeElem → Except PyErr Bool
  | [] => .ok false
  | e :: rest =>
    match unpackElem e with
    | .error err => .error err
    | .ok (lo, hi) =>
      if pyStrLe lo [c] && pyStrLe [c] hi then .ok true else scanChar c rest

/-- The outer loop of `detect_is_source_language`: scan the text, returning at
the first character matched by some range element. -/
def scanText (ranges : List RangeElem) : List Nat → Except PyErr Bool
  | [] => .ok false
  | c :: cs =>
    match scanChar c ranges with
    | .error err => .error err
    | .ok b => if b then .ok true else scanText ranges cs

/-- The body shared by all three copies of the detector once the entry has
been looked up: `if not ranges: return None` then the two loops. -/
def detectEntry (entry : Option (List RangeElem)) (text : List Nat) :
    Except PyErr (Option Bool) :=
  match entry with
  | none => .ok none
  | some rs => if rs.isEmpty then .ok none else (scanText rs text).map some

/-- Table `CODE_TO_NAME` of `src/shiftlang/language.py`, as the Python dict it builds:
the literal lists `"ps"` twice with the same value and `"so"` twice
(`"osmanya"` then `"somali"`); dict semantics keep one entry per key with the
later value, so `"so"` maps to `"somali"`. -/
def CODE_TO_NAME : List (List Nat × List Nat) := [
  (pyStr "he", pyStr "hebrew"),
  (pyStr "iw", pyStr "hebrew"),
  (pyStr "ar", pyStr "arabic"),
  (pyStr "fa", pyStr "persian"),
  (pyStr "ur", pyStr "urdu"),
  (pyStr "ps", pyStr "pashto"),
  (pyStr "syr", pyStr "syriac"),
  (pyStr "mid", pyStr "mandaic"),
  (pyStr "dv", pyStr "thaana"),
  (pyStr "hi", pyStr "hindi"),
  (pyStr "bn", pyStr "bengali"),
  (pyStr "pa", pyStr "gurmukhi"),
  (pyStr "gu", pyStr "gujarati"),
  (pyStr "or", pyStr "oriya"),
  (pyStr "ta", pyStr "tamil"),
  (pyStr "te", pyStr "telugu"),
  (pyStr "kn", pyStr "kannada"),
  (pyStr "ml", pyStr "malayalam"),
  (pyStr "si", pyStr "sinhala"),
  (pyStr "th", pyStr "thai"),
  (pyStr "lo", pyStr "lao"),
  (pyStr "bo", pyStr "tibetan"),
  (pyStr "my", pyStr "myanmar"),
  (pyStr "km", pyStr "khmer"),
  (pyStr "nqo", pyStr "n" ++ [39] ++ pyStr "ko"),
  (pyStr "ja", pyStr "japanese"),
  (pyStr "zh", pyStr "chinese (simplified)"),
  (pyStr "zh-cn", pyStr "chinese (simplified)"),
  (pyStr "zh-hans", pyStr "chinese (simplified)"),
  (pyStr "zh-tw", pyStr "chinese (traditional)"),
  (pyStr "zh-hant", pyStr "chinese (traditional)"),
  (pyStr "ko", pyStr "korean"),
  (pyStr "ru", pyStr "russian"),
  (pyStr "uk", pyStr "ukrainian"),
  (pyStr "bg", pyStr "bulgarian"),
  (pyStr "sr", pyStr "serbian"),
  (pyStr "be", pyStr "belarusian"),
  (pyStr "mk", pyStr "macedonian"),
  (pyStr "mn", pyStr "mongolian"),
  (pyStr "el", pyStr "greek"),
  (pyStr "ka", pyStr "georgian"),
  (pyStr "hy", pyStr "armenian"),
  (pyStr "ber", pyStr "tifinagh"),
  (pyStr "tmh", pyStr "tifinagh"),
  (pyStr "so", pyStr "somali"),
  (pyStr "bax", pyStr "bamum"),
  (pyStr "chr", pyStr "cherokee"),
  (pyStr "oj", pyStr "canadian aboriginal"),
  (pyStr "cr", pyStr "canadian aboriginal"),
  (pyStr "sga", pyStr "ogham"),
  (pyStr "got", pyStr "runic"),
  (pyStr "dsr", pyStr "deseret"),
  (pyStr "shw", pyStr "shavian"),
  (pyStr "tai", pyStr "new tai lue"),
  (pyStr "bug", pyStr "buginese"),
  (pyStr "su", pyStr "sundanese"),
  (pyStr "btk", pyStr "batak"),
  (pyStr "lep", pyStr "lepcha"),
  (pyStr "sat", pyStr "ol chiki"),
  (pyStr "saz", pyStr "saurashtra"),
  (pyStr "krl", pyStr "kayah li"),
  (pyStr "rej", pyStr "rejang"),
  (pyStr "xlc", pyStr "lycian"),
  (pyStr "xcr", pyStr "carian"),
  (pyStr "xld", pyStr "lydian"),
  (pyStr "en", pyStr "english"),
  (pyStr "es", pyStr "spanish"),
  (pyStr "fr", pyStr "french"),
  (pyStr "de", pyStr "german"),
  (pyStr "it", pyStr "italian"),
  (pyStr "pt", pyStr "portuguese"),
  (pyStr "nl", pyStr "dutch"),
  (pyStr "pl", pyStr "polish"),
  (pyStr "tr", pyStr "turkish"),
  (pyStr "vi", pyStr "vietnamese"),
  (pyStr "id", pyStr "indonesian"),
  (pyStr "ms", pyStr "malay"),
  (pyStr "fil", pyStr "filipino"),
  (pyStr "tl", pyStr "filipino"),
  (pyStr "sw", pyStr "swahili"),
  (pyStr "af", pyStr "afrikaans"),
  (pyStr "sq", pyStr "albanian"),
  (pyStr "am", pyStr "amharic"),
  (pyStr "az", pyStr "azerbaijani"),
  (pyStr "eu", pyStr "basque"),
  (pyStr "bs", pyStr "bosnian"),
  (pyStr "ca", pyStr "catalan"),
  (pyStr "ceb", pyStr "cebuano"),
  (pyStr "ny", pyStr "chichewa"),
  (pyStr "co", pyStr "corsican"),
  (pyStr "hr", pyStr "croatian"),
  (pyStr "cs", pyStr "czech"),
  (pyStr "da", pyStr "danish"),
  (pyStr "eo", pyStr "esperanto"),
  (pyStr "et", pyStr "estonian"),
  (pyStr "fi", pyStr "finnish"),
  (pyStr "fy", pyStr "frisian"),
  (pyStr "gl", pyStr "galician"),
  (pyStr "ht", pyStr "haitian creole"),
  (pyStr "ha", pyStr "hausa"),
  (pyStr "haw", pyStr "hawaiian"),
  (pyStr "hmn", pyStr "hmong"),
  (pyStr "hu", pyStr "hungarian"),
  (pyStr "is", pyStr "icelandic"),
  (pyStr "ig", pyStr "igbo"),
  (pyStr "ga", pyStr "irish"),
  (pyStr "jw", pyStr "javanese"),
  (pyStr "kk", pyStr "kazakh"),
  (pyStr "rw", pyStr "kinyarwanda"),
  (pyStr "ku", pyStr "kurdish (kurmanji)"),
  (pyStr "ky", pyStr "kyrgyz"),
  (pyStr "la", pyStr "latin"),
  (pyStr "lv", pyStr "latvian"),
  (pyStr "lt", pyStr "lithuanian"),
  (pyStr "lb", pyStr "luxembourgish"),
  (pyStr "mg", pyStr "malagasy"),
  (pyStr "mt", pyStr "maltese"),
  (pyStr "mi", pyStr "maori"),
  (pyStr "mr", pyStr "marathi"),
  (pyStr "ne", pyStr "nepali"),
  (pyStr "no", pyStr "norwegian"),
  (pyStr "nb", pyStr "norwegian"),
  (pyStr "nn", pyStr "norwegian"),
  (pyStr "sd", pyStr "sindhi"),
  (pyStr "sk", pyStr "slovak"),
  (pyStr "sl", pyStr "slovenian"),
  (pyStr "st", pyStr "sesotho"),
  (pyStr "sn", pyStr "shona"),
  (pyStr "sm", pyStr "samoan"),
  (pyStr "gd", pyStr "scots gaelic"),
  (pyStr "tg", pyStr "tajik"),
  (pyStr "tk", pyStr "turkmen"),
  (pyStr "ug", pyStr "uyghur"),
  (pyStr "uz", pyStr "uzbek"),
  (pyStr "cy", pyStr "welsh"),
  (pyStr "xh", pyStr "xhosa"),
  (pyStr "yi", pyStr "yiddish"),
  (pyStr "yo", pyStr "yoruba"),
  (pyStr "zu", pyStr "zulu")]

/-- Table `LANGUAGE_UNICODE_RANGES` of `src/shiftlang/language.py` (textually identical
to `_LANGUAGE_UNICODE_RANGES` in `src/main.py`).  Shapes are kept exactly:
`coptic`, `lepcha`, `lycian`, `carian`, `lydian` are flat lists of strings,
not lists of tuples; and the `\u` escapes written with five hex digits
(`osmanya`, `deseret`, `shavian`, `lycian`, `carian`, `lydian`) denote, as in
CPython, a 4-hex-digit character followed by a literal digit/letter, i.e.
two-character strings. -/
def LANGUAGE_UNICODE_RANGES : List (List Nat × List RangeElem) := [
  (pyStr "hebrew", [.tup [0x0590] [0x05ff]]),
  (pyStr "arabic", [.tup [0x0600] [0x06ff], .tup [0x0750] [0x077f]]),
  (pyStr "persian", [.tup [0x0600] [0x06ff], .tup [0x0750] [0x077f]]),
  (pyStr "urdu", [.tup [0x0600] [0x06ff], .tup [0x0750] [0x077f]]),
  (pyStr "pashto", [.tup [0x0600] [0x06ff], .tup [0x0750] [0x077f]]),
  (pyStr "syriac", [.tup [0x0700] [0x074f]]),
  (pyStr "mandaic", [.tup [0x0840] [0x085f]]),
  (pyStr "thaana", [.tup [0x0780] [0x07bf]]),
  (pyStr "hindi", [.tup [0x0900] [0x097f]]),
  (pyStr "bengali", [.tup [0x0980] [0x09ff]]),
  (pyStr "gurmukhi", [.tup [0x0a00] [0x0a7f]]),
  (pyStr "gujarati", [.tup [0x0a80] [0x0aff]]),
  (pyStr "oriya", [.tup [0x0b00] [0x0b7f]]),
  (pyStr "tamil", [.tup [0x0b80] [0x0bff]]),
  (pyStr "telugu", [.tup [0x0c00] [0x0c7f]]),
  (pyStr "kannada", [.tup [0x0c80] [0x0cff]]),
  (pyStr "malayalam", [.tup [0x0d00] [0x0d7f]]),
  (pyStr "sinhala", [.tup [0x0d80] [0x0dff]]),
  (pyStr "thai", [.tup [0x0e00] [0x0e7f]]),
  (pyStr "lao", [.tup [0x0e80] [0x0eff]]),
  (pyStr "tibetan", [.tup [0x0f00] [0x0fff]]),
  (pyStr "myanmar", [.tup [0x1000] [0x109f]]),
  (pyStr "khmer", [.tup [0x1780] [0x17ff]]),
  (pyStr "n" ++ [39] ++ pyStr "ko", [.tup [0x07c0] [0x07ff]]),
  (pyStr "japanese",
    [.tup [0x3040] [0x309f], .tup [0x30a0] [0x30ff], .tup [0x4e00] [0x9fff]]),
  (pyStr "chinese (simplified)", [.tup [0x4e00] [0x9fff], .tup [0x3400] [0x4dbf]]),
  (pyStr "chinese (traditional)", [.tup [0x4e00] [0x9fff], .tup [0x3400] [0x4dbf]]),
  (pyStr "korean", [.tup [0xac00] [0xd7af], .tup [0x1100] [0x11ff]]),
  (pyStr "russian", [.tup [0x0400] [0x04ff]]),
  (pyStr "ukrainian", [.tup [0x0400] [0x04ff]]),
  (pyStr "bulgarian", [.tup [0x0400] [0x04ff]]),
  (pyStr "serbian", [.tup [0x0400] [0x04ff]]),
  (pyStr "belarusian", [.tup [0x0400] [0x04ff]]),
  (pyStr "macedonian", [.tup [0x0400] [0x04ff]]),
  (pyStr "mongolian", [.tup [0x1800] [0x18af]]),
  (pyStr "greek", [.tup [0x0370] [0x03ff]]),
  (pyStr "georgian", [.tup [0x10a0] [0x10ff]]),
  (pyStr "armenian", [.tup [0x0530] [0x058f]]),
  (pyStr "coptic", [.bare [0x2c80], .bare [0x2cdf]]),
  (pyStr "glagolitic", [.tup [0x2c00] [0x2c5f]]),
  (pyStr "vai", [.tup [0xa500] [0xa63f]]),
  (pyStr "tifinagh", [.tup [0x2d30] [0x2d7f]]),
  (pyStr "osmanya", [.tup [0x1048, 0x30] [0x104a, 0x46]]),
  (pyStr "bamum", [.tup [0xa6a0] [0xa6ff]]),
  (pyStr "cherokee", [.tup [0x13a0] [0x13ff]]),
  (pyStr "canadian aboriginal", [.tup [0x18b0] [0x18ff]]),
  (pyStr "ogham", [.tup [0x1680] [0x169f]]),
  (pyStr "runic", [.tup [0x16a0] [0x16ff]]),
  (pyStr "deseret", [.tup [0x1040, 0x30] [0x1044, 0x46]]),
  (pyStr "shavian", [.tup [0x1045, 0x30] [0x1047, 0x46]]),
  (pyStr "new tai lue", [.tup [0x1980] [0x19df]]),
  (pyStr "buginese", [.tup [0x1a00] [0x1a1f]]),
  (pyStr "sundanese", [.tup [0x1b80] [0x1bbf]]),
  (pyStr "batak", [.tup [0x1bc0] [0x1bff]]),
  (pyStr "lepcha", [.bare [0x1c00], .bare [0x1c4f]]),
  (pyStr "ol chiki", [.tup [0x1c50] [0x1c7f]]),
  (pyStr "saurashtra", [.tup [0xa880] [0xa8df]]),
  (pyStr "kayah li", [.tup [0xa900] [0xa92f]]),
  (pyStr "rejang", [.tup [0xa930] [0xa95f]]),
  (pyStr "lycian", [.bare [0x1028, 0x30], .bare [0x1029, 0x46]]),
  (pyStr "carian", [.bare [0x102a, 0x30], .bare [0x102d, 0x46]]),
  (pyStr "lydian", [.bare [0x1091, 0x30], .bare [0x1091, 0x46]])]

/-- The lookup `CODE_TO_NAME.get(src, src)` after `source_language.lower()`. -/
def nameFor (src : List Nat) : List Nat :=
  ((CODE_TO_NAME.lookup (pyLower src)).getD (pyLower src))

/-- The ranges entry `detect_is_source_language` resolves for a source
language: lower-case, map code to name, look up the script table. -/
def resolvedRanges (src : List Nat) : Option (List RangeElem) :=
  LANGUAGE_UNICODE_RANGES.lookup (nameFor src)

/-- Function `detect_is_source_language` of `src/shiftlang/language.py`. -/
def detect_is_source_language (text src : List Nat) : Except PyErr (Option Bool) :=
  detectEntry (resolvedRanges src) text

/-! ## Translators (`src/openrouter_translator.py`, `src/shiftlang/translator.py`)

Each backend's network interaction is an oracle value describing what the one
request of a `translate` call would produce.  A `translate` call returns its
result together with a flag recording whether the network was consulted. -/

/-- Python truthiness/blank test `not text or not text.strip()`. -/
def pyBlank (text : List Nat) : Bool := text.isEmpty || (pyStrip text).isEmpty

/-- Outcome of the one HTTP request of `OpenRouterTranslator.translate`:
a parsed completion, a 401 status, a `requests` exception, or a response
whose traversal raises `KeyError`/`IndexError`. -/
inductive OROutcome
  | success (content : List Nat)
  | http401
  | requestError
  | parseError
  deriving DecidableEq, Repr

/-- The cleanup chain of strip calls (whitespace, then both quote characters,
code points 34 and 39) applied to the completion content in
`OpenRouterTranslator.translate`. -/
def orCleanup (content : List Nat) : List Nat :=
  pyStripIf (· == 39) (pyStripIf (· == 34) (pyStrip content))

/-- Method `OpenRouterTranslator.translate` of `src/openrouter_translator.py`:
blank input short-circuits; 401, request exceptions and response-parsing
errors are caught and the original text returned.  The second component
records whether a network request was made. -/
def openrouterTranslate (net : OROutcome) (text : List Nat) : List Nat × Bool :=
  if pyBlank text then (text, false)
  else
    match net with
    | .success content => (orCleanup content, true)
    | .http401 => (text, true)
    | .requestError => (text, true)
    | .parseError => (text, true)

/-- Outcome of one backend call that either returns a string or raises. -/
abbrev NetOutcome : Type := Except Unit (List Nat)

/-- Method `TranslatorsWrapper.translate` of `src/shiftlang/translator.py`: blank input
short-circuits; an engine exception is printed and then re-raised
(`raise`), so it propagates to the caller. -/
def translatorsWrapperTranslate (net : NetOutcome) (text : List Nat) :
    Except PyErr (List Nat) × Bool :=
  if pyBlank text then (.ok text, false)
  else
    match net with
    | .ok r => (.ok r, true)
    | .error _ => (.error .providerError, true)

/-- Method `MyMemoryWrapper.translate` of `src/shiftlang/translator.py`: blank input
short-circuits; otherwise the inner translator's result (or exception)
passes through unhandled. -/
def myMemoryTranslate (net : NetOutcome) (text : List Nat) :
    Except PyErr (List Nat) × Bool :=
  if pyBlank text then (.ok text, false)
  else
    match net with
    | .ok r => (.ok r, true)
    | .error _ => (.error .providerError, true)

/-! ## The `src/main.py` pipeline (`translate_text`) -/

/-- The configured provider branch taken in `translate_text`
(`config["translation_provider"].lower() == "openrouter"` or anything else,
which falls to the Google branch). -/
inductive Provider
  | openrouter
  | google
  deriving DecidableEq, Repr

/-- One translator-method invocation performed by a pipeline run. -/
inductive PCall
  | orFwd    -- _translator_forward.translate (OpenRouter)
  | orRev    -- _translator_reverse.translate (OpenRouter)
  | gAutoT   -- GoogleTranslator(source="auto", target=target_language)
  | gAutoS   -- GoogleTranslator(source="auto", target=source_language)
  | gFwd     -- _translator_forward.translate (Google)
  | gRev     -- _translator_reverse.translate (Google)
  deriving DecidableEq, Repr

/-- Environment of one `translate_text` run: the configuration fields it
reads, the successive clipboard reads `pyperclip.paste()` would return, the
outcome each translator instance's single call would produce, and whether the
final clipboard write succeeds. -/
structure MainEnv where
  provider : Provider
  sourceLang : List Nat        -- config["source_language"]
  polls : Nat → List Nat       -- clipboard contents at poll attempt i
  orForward : OROutcome
  orReverse : OROutcome
  gForward : NetOutcome
  gReverse : NetOutcome
  gAutoTgt : NetOutcome        -- the auto→target GoogleTranslator
  gAutoSrc : NetOutcome        -- the auto→source GoogleTranslator
  clipWriteOk : Bool           -- copy_to_clipboard_no_history result

/-- Clipboard polling loop of `translate_text` step 3: up to `remaining`
reads starting at attempt `i`, breaking at the first read whose `strip()` is
non-empty; returns the last read together with the number of polls made. -/
def pollClipboard (polls : Nat → List Nat) (prev : List Nat) (i : Nat) :
    Nat → List Nat × Nat
  | 0 => (prev, i)
  | r + 1 =>
    let t := polls i
    if (pyStrip t).isEmpty then pollClipboard polls t (i + 1) r else (t, i + 1)

/-- The ten-attempt clipboard capture of `translate_text`. -/
def captureMain (polls : Nat → List Nat) : List Nat × Nat :=
  pollClipboard polls [] 0 10

/-- The no-op test `translated.strip().lower() == text.strip().lower()`. -/
def noopResult (translated text : List Nat) : Bool :=
  pyLower (pyStrip translated) == pyLower (pyStrip text)

/-- Function `_detect_is_source_language` of `src/main.py`: same loop body as the
`language.py` detector, but the lower-cased `source_language` is looked up in
the script table directly (no code-to-name mapping). -/
def mainDetect (text src : List Nat) : Except PyErr (Option Bool) :=
  detectEntry (LANGUAGE_UNICODE_RANGES.lookup (pyLower src)) text

/-- Step 5 of `translate_text` (direction detection and translation), with
the list of translator invocations it performs.  An `Except.error` result is
an exception that reaches `translate_text`'s top-level handler. -/
def routeTranslate (env : MainEnv) (text : List Nat) :
    Except PyErr (List Nat) × List PCall :=
  match mainDetect text env.sourceLang with
  | .error e => (.error e, [])
  | .ok isSource =>
    match env.provider with
    | .openrouter =>
      let r1 := (openrouterTranslate env.orForward text).1
      if noopResult r1 text then
        (.ok (openrouterTranslate env.orReverse text).1, [.orFwd, .orRev])
      else (.ok r1, [.orFwd])
    | .google =>
      match isSource with
      | none =>
        match env.gAutoTgt with
        | .error _ => (.error .providerError, [.gAutoT])
        | .ok r1 =>
          if !r1.isEmpty && noopResult r1 text then
            match env.gAutoSrc with
            | .error _ => (.error .providerError, [.gAutoT, .gAutoS])
            | .ok r2 => (.ok r2, [.gAutoT, .gAutoS])
          else (.ok r1, [.gAutoT])
      | some true =>
        match env.gForward with
        | .error _ => (.error .providerError, [.gFwd])
        | .ok r => (.ok r, [.gFwd])
      | some false =>
        match env.gReverse with
        | .error _ => (.error .providerError, [.gRev])
        | .ok r => (.ok r, [.gRev])

/-- Observable outcome of one `translate_text` run. -/
structure RunResult where
  captured : List Nat          -- the clipboard text the run worked on
  pollsUsed : Nat              -- clipboard poll attempts consumed
  calls : List PCall           -- translator invocations, in order
  pasted : Option (List Nat)   -- text pasted back, if the run got that far
  errorLogged : Bool           -- the top-level `except` branch ran
  deriving DecidableEq, Repr

/-- Function `translate_text` of `src/main.py`.  `busy` is the `_is_translating`
re-entrancy flag at entry; when set the function returns at once.  Every
exception of the body is caught by the top-level handler, so the model is
total: the pipeline never crashes the process. -/
def translate_text (env : MainEnv) (busy : Bool) : RunResult :=
  if busy then ⟨[], 0, [], none, false⟩
  else
    let cap := captureMain env.polls
    if (pyStrip cap.1).isEmpty then ⟨cap.1, cap.2, [], none, false⟩
    else
      match routeTranslate env cap.1 with
      | (.ok translated, calls) =>
        if env.clipWriteOk then ⟨cap.1, cap.2, calls, some translated, false⟩
        else ⟨cap.1, cap.2, calls, none, false⟩
      | (.error _, calls) => ⟨cap.1, cap.2, calls, none, true⟩

/-! ## The `src/shiftlang_wayland.py` pipeline -/

/-- Table `_LANGUAGE_UNICODE_RANGES` of `src/shiftlang_wayland.py` (the Wayland build
carries a smaller table; every entry is a list of tuples of one-character
strings). -/
def WAYLAND_UNICODE_RANGES : List (List Nat × List RangeElem) := [
  (pyStr "hebrew", [.tup [0x0590] [0x05ff]]),
  (pyStr "arabic", [.tup [0x0600] [0x06ff], .tup [0x0750] [0x077f]]),
  (pyStr "persian", [.tup [0x0600] [0x06ff], .tup [0x0750] [0x077f]]),
  (pyStr "urdu", [.tup [0x0600] [0x06ff], .tup [0x0750] [0x077f]]),
  (pyStr "hindi", [.tup [0x0900] [0x097f]]),
  (pyStr "bengali", [.tup [0x0980] [0x09ff]]),
  (pyStr "thai", [.tup [0x0e00] [0x0e7f]]),
  (pyStr "korean", [.tup [0xac00] [0xd7af], .tup [0x1100] [0x11ff]]),
  (pyStr "japanese",
    [.tup [0x3040] [0x309f], .tup [0x30a0] [0x30ff], .tup [0x4e00] [0x9fff]]),
  (pyStr "chinese (simplified)", [.tup [0x4e00] [0x9fff], .tup [0x3400] [0x4dbf]]),
  (pyStr "chinese (traditional)", [.tup [0x4e00] [0x9fff], .tup [0x3400] [0x4dbf]]),
  (pyStr "russian", [.tup [0x0400] [0x04ff]]),
  (pyStr "ukrainian", [.tup [0x0400] [0x04ff]]),
  (pyStr "bulgarian", [.tup [0x0400] [0x04ff]]),
  (pyStr "serbian", [.tup [0x0400] [0x04ff]]),
  (pyStr "greek", [.tup [0x0370] [0x03ff]]),
  (pyStr "georgian", [.tup [0x10a0] [0x10ff]]),
  (pyStr "armenian", [.tup [0x0530] [0x058f]]),
  (pyStr "tamil", [.tup [0x0b80] [0x0bff]]),
  (pyStr "telugu", [.tup [0x0c00] [0x0c7f]]),
  (pyStr "kannada", [.tup [0x0c80] [0x0cff]]),
  (pyStr "malayalam", [.tup [0x0d00] [0x0d7f]]),
  (pyStr "gujarati", [.tup [0x0a80] [0x0aff]]),
  (pyStr "punjabi", [.tup [0x0a00] [0x0a7f]])]

/-- Function `_detect_is_source_language` of `src/shiftlang_wayland.py`. -/
def waylandDetect (text src : List Nat) : Except PyErr (Option Bool) :=
  detectEntry (WAYLAND_UNICODE_RANGES.lookup (pyLower src)) text

/-- Environment of one Wayland `translate()` run: the clipboard value before
the copy chord (`orig = get_clip()`), the successive `get_clip()` poll
results, and the translator oracles (same roles as in `MainEnv`). -/
structure WaylandEnv where
  provider : Provider
  sourceLang : List Nat
  origClip : List Nat
  polls : Nat → List Nat
  orForward : OROutcome
  orReverse : OROutcome
  gForward : NetOutcome
  gReverse : NetOutcome
  gAutoTgt : NetOutcome
  gAutoSrc : NetOutcome

/-- The Wayland clipboard polling loop: up to `remaining` reads starting at
attempt `i`, breaking at the first read that is non-empty and differs from
`orig`; returns the last read and the number of polls made. -/
def pollWayland (polls : Nat → List Nat) (orig prev : List Nat) (i : Nat) :
    Nat → List Nat × Nat
  | 0 => (prev, i)
  | r + 1 =>
    let t := polls i
    if !t.isEmpty && t != orig then (t, i + 1)
    else pollWayland polls orig t (i + 1) r

/-- The twenty-attempt clipboard capture of the Wayland `translate()`. -/
def captureWayland (polls : Nat → List Nat) (orig : List Nat) : List Nat × Nat :=
  pollWayland polls orig [] 0 20

/-- Direction resolution and translation of the Wayland `translate()` (same
structure as `routeTranslate`, but with the Wayland detector and table). -/
def waylandRoute (env : WaylandEnv) (text : List Nat) :
    Except PyErr (List Nat) × List PCall :=
  match waylandDetect text env.sourceLang with
  | .error e => (.error e, [])
  | .ok isSource =>
    match env.provider with
    | .openrouter =>
      let r1 := (openrouterTranslate env.orForward text).1
      if noopResult r1 text then
        (.ok (openrouterTranslate env.orReverse text).1, [.orFwd, .orRev])
      else (.ok r1, [.orFwd])
    | .google =>
      match isSource with
      | none =>
        match env.gAutoTgt with
        | .error _ => (.error .providerError, [.gAutoT])
        | .ok r1 =>
          if !r1.isEmpty && noopResult r1 text then
            match env.gAutoSrc with
            | .error _ => (.error .providerError, [.gAutoT, .gAutoS])
            | .ok r2 => (.ok r2, [.gAutoT, .gAutoS])
          else (.ok r1, [.gAutoT])
      | some true =>
        match env.gForward with
        | .error _ => (.error .providerError, [.gFwd])
        | .ok r => (.ok r, [.gFwd])
      | some false =>
        match env.gReverse with
        | .error _ => (.error .providerError, [.gRev])
        | .ok r => (.ok r, [.gRev])

/-- Function `translate()` of `src/shiftlang_wayland.py`: capture with the
fresh-and-non-empty break condition, abort only when the final value is
empty (`if not text`), then the translation block whose exceptions are all
caught by the surrounding handler. -/
def waylandTranslate (env : WaylandEnv) : RunResult :=
  let cap := captureWayland env.polls env.origClip
  if cap.1.isEmpty then ⟨cap.1, cap.2, [], none, false⟩
  else
    match waylandRoute env cap.1 with
    | (.ok translated, calls) => ⟨cap.1, cap.2, calls, some translated, false⟩
    | (.error _, calls) => ⟨cap.1, cap.2, calls, none, true⟩

/-! ## Input listener and session guard (`src/shiftlang_wayland.py`) -/

/-- Function `check_hotkey`: every required key group has some pressed code. -/
def check_hotkey (pressed : List Nat) (hotkeyCodes : List (List Nat)) : Bool :=
  hotkeyCodes.all (fun grp => grp.any (pressed.contains ·))

/-- The `Listener` fields the hotkey path touches, plus a ghost counter of
pipeline threads started and not yet finished (each dispatched thread runs
`translate()` and clears `busy` in its `finally`). -/
structure GuardState where
  pressed : List Nat
  lastTrigger : ℚ              -- time.time() of the last accepted trigger
  busy : Bool
  active : Nat                 -- running pipeline threads (ghost)
  deriving DecidableEq, Repr

/-- The listener state at process start (`pressed` empty, `last_trigger = 0`,
`busy = False`, no pipeline thread running). -/
def initGuard : GuardState := ⟨[], 0, false, 0⟩

/-- Events the guard reacts to: a key event seen by `Listener.handle`
(down/up with the wall-clock time at which `time.time()` would be read), and
the completion of a dispatched pipeline thread (its `finally`). -/
inductive LEvent
  | key (time : ℚ) (code : Nat) (down : Bool)
  | finish

/-- Update of `self.pressed` for one key event. -/
def updatePressed (pressed : List Nat) (code : Nat) (down : Bool) : List Nat :=
  if down then
    if pressed.contains code then pressed else code :: pressed
  else pressed.erase code

/-- Does `Listener.handle` dispatch a pipeline thread on this event?
This is the guard `check_hotkey(...) and not (now - last_trigger < 1.5 or
busy)`. -/
def dispatches (hotkeyCodes : List (List Nat)) (s : GuardState) : LEvent → Bool
  | .key t c down =>
    check_hotkey (updatePressed s.pressed c down) hotkeyCodes &&
      !(decide (t - s.lastTrigger < 3/2) || s.busy)
  | .finish => false

/-- One step of `Listener.handle` (key events) or of a pipeline thread's
`finally` (finish events). -/
def guardStep (hotkeyCodes : List (List Nat)) (s : GuardState) : LEvent → GuardState
  | .key t c down =>
    let p := updatePressed s.pressed c down
    if dispatches hotkeyCodes s (.key t c down) then
      ⟨[], t, true, s.active + 1⟩
    else
      ⟨p, s.lastTrigger, s.busy, s.active⟩
  | .finish => ⟨s.pressed, s.lastTrigger, false, s.active - 1⟩

/-- The guard state after a sequence of events from process start. -/
def guardRun (hotkeyCodes : List (List Nat)) (evs : List LEvent) : GuardState :=
  evs.foldl (guardStep hotkeyCodes) initGuard

/-! ## Startup (`src/main.py` `main`, `src/shiftlang_wayland.py`
`Listener.start`) -/

/-- The externally visible actions a startup path performs, in order. -/
inductive StartupAction
  | printMsg          -- console output
  | acquireLock       -- acquiring a process-wide exclusive lock
  | findDevices       -- enumerating /dev/input keyboards
  | registerHotkey    -- keyboard.add_hotkey(...)
  | startMonitors     -- spawning the device-monitor threads
  | waitForEvents     -- keyboard.wait() / the sleep loop
  | exitNoDevices     -- returning False after "No keyboard devices found"
  deriving DecidableEq, Repr

/-- Function `main()` of `src/main.py`: three prints, hotkey registration, event wait. -/
def mainStartupActions : List StartupAction :=
  [.printMsg, .printMsg, .printMsg, .registerHotkey, .waitForEvents]

/-- Method `Listener.start` of `src/shiftlang_wayland.py`: device discovery, then
either the failure report or the banner prints, monitor threads and the
sleep loop, depending on whether any keyboard device was found. -/
def listenerStartActions (devicesFound : Bool) : List StartupAction :=
  if devicesFound then
    [.findDevices, .printMsg, .startMonitors, .waitForEvents]
  else
    [.findDevices, .printMsg, .exitNoDevices]

/-! ## Derived views of the script table -/

deriving instance DecidableEq for Except

/-- A range element of the shape the detector's loop expects: a tuple whose
bounds are single code points. -/
def goodElem : RangeElem → Bool
  | .tup [_] [_] => true
  | _ => false

/-- The code-point interval denoted by a well-formed range element. -/
def ivOf : RangeElem → Option (Nat × Nat)
  | .tup [lo] [hi] => some (lo, hi)
  | _ => none

/-- The code-point intervals of a table entry. -/
def entryIvs (rs : List RangeElem) : List (Nat × Nat) := rs.filterMap ivOf

/-- Is code point `c` inside interval `iv`? -/
def hitIv (c : Nat) (iv : Nat × Nat) : Bool := decide (iv.1 ≤ c) && decide (c ≤ iv.2)

/-- The registered script intervals of a source language, after the
code-to-name mapping; `none` when the language has no (non-empty) entry. -/
def registeredIntervals (src : List Nat) : Option (List (Nat × Nat)) :=
  match resolvedRanges src with
  | none => none
  | some rs => if rs.isEmpty then none else some (entryIvs rs)

/-- Every range element of the language's entry (if any) is well-formed. -/
def goodSource (src : List Nat) : Bool :=
  match resolvedRanges src with
  | none => true
  | some rs => rs.all goodElem

theorem pyStrLe_single (a b : Nat) : pyStrLe [a] [b] = decide (a ≤ b) := by
  show (if a < b then true else if b < a then false else pyStrLe [] []) = decide (a ≤ b)
  split_ifs with h1 h2 <;> simp [pyStrLe] <;> omega

theorem scanChar_good (c : Nat) (rs : List RangeElem) (h : rs.all goodElem = true) :
    scanChar c rs = .ok ((entryIvs rs).any (hitIv c)) := by
  induction rs with
  | nil => rfl
  | cons e rest ih =>
    rw [List.all_cons, Bool.and_eq_true] at h
    obtain ⟨he, hrest⟩ := h
    have ih' := ih hrest
    match e, he with
    | .tup [a] [b], _ =>
      show (if pyStrLe [a] [c] && pyStrLe [c] [b] then Except.ok true
            else scanChar c rest) = _
      rw [pyStrLe_single, pyStrLe_single]
      by_cases h1 : a ≤ c <;> by_cases h2 : c ≤ b <;>
        simp [entryIvs, ivOf, hitIv, h1, h2, ih', List.any_cons]

theorem scanText_good (rs : List RangeElem) (h : rs.all goodElem = true)
    (t : List Nat) :
    scanText rs t = .ok (t.any (fun c => (entryIvs rs).any (hitIv c))) := by
  induction t with
  | nil => rfl
  | cons c cs ih =>
    simp only [scanText]
    rw [scanChar_good c rs h]
    by_cases hc : (entryIvs rs).any (hitIv c) = true
    · simp [hc]
    · rw [Bool.not_eq_true] at hc
      simp [hc, ih]

/-! ## Claim C1 — Direction Resolver (amended) -/

/-- C1 (amended).  For every captured text and every configured source
language whose resolved script-table entry is well-formed (a list of
`(lo, hi)` tuples of single code points — every entry except `coptic`,
`lepcha`, `lycian`, `carian`, `lydian`, `osmanya`, `deseret`, `shavian`):
if the language has a registered (non-empty) entry, detection returns
`True` (direction `ForwardSourceToTarget`) exactly when the text contains a
code point inside one of the registered intervals and `False`
(`ReverseTargetToSource`) otherwise; if the language has no entry, detection
returns `None` (`AutoDetect`). -/
theorem C1_direction_resolver (t src : List Nat) (h : goodSource src = true) :
    detect_is_source_language t src =
      .ok ((registeredIntervals src).map
        (fun ivs => t.any (fun c => ivs.any (hitIv c)))) := by
  rcases hr : resolvedRanges src with _ | rs
  · simp [detect_is_source_language, detectEntry, registeredIntervals, hr]
  · have h' : rs.all goodElem = true := by
      unfold goodSource at h; rw [hr] at h; exact h
    by_cases he : rs.isEmpty
    · simp [detect_is_source_language, detectEntry, registeredIntervals, hr, he]
    · simp [detect_is_source_language, detectEntry, registeredIntervals, hr, he,
        scanText_good rs h' t, Except.map]

/-- Witness for C1 at concrete inputs: Hebrew text under source `hebrew`
detects `True`, Latin text under `hebrew` detects `False`, and `spanish`
(no script entry) yields `None`. -/
theorem C1_direction_resolver_witness :
    detect_is_source_language [0x05D0] (pyStr "hebrew") = .ok (some true) ∧
    detect_is_source_language (pyStr "hello") (pyStr "hebrew") = .ok (some false) ∧
    detect_is_source_language (pyStr "hola") (pyStr "spanish") = .ok none := by
  refine ⟨?_, ?_, ?_⟩ <;> rw [C1_direction_resolver _ _ (by decide)] <;> decide

/-- Counterexample to C1 as stated: `coptic` has a registered entry
(`0x2C80`–`0x2CDF`) and the text `"Ⲁ"` (U+2C80) lies inside it, yet the
detector raises `ValueError` (the entry is a flat list of one-character
strings, so `for lo, hi in ranges` cannot unpack it) instead of returning
`True`. -/
theorem C1_counterexample :
    detect_is_source_language [0x2c80] (pyStr "coptic") = .error .valueError ∧
    detect_is_source_language [0x2c80] (pyStr "coptic") ≠ .ok (some true) := by
  decide

/-! ## Claim C2 — detection totality (code bug) -/

/-- C2 evaluated at a failing input: with source language `lepcha` (table
entry `["ᰀ", "ᱏ"]`, a flat list of one-character strings) and the
one-character text U+1C00, `detect_is_source_language` raises `ValueError`
rather than returning `True`, `False` or `None`.  The same happens for
`coptic`; the claim (and the function's own docstring) promise a
`True`/`False`/`None` result for every table entry. -/
theorem C2_flat_entries_raise :
    detect_is_source_language [0x1c00] (pyStr "lepcha") = .error .valueError ∧
    (∀ b : Option Bool, detect_is_source_language [0x1c00] (pyStr "lepcha") ≠ .ok b) := by
  decide

/-! ## Claim C10 — code aliases and case-insensitivity -/

set_option maxRecDepth 100000 in
theorem code_alias_consistent :
    ∀ p ∈ CODE_TO_NAME, resolvedRanges p.1 = resolvedRanges p.2 := by decide

theorem pyLowerChar_idem (n : Nat) : pyLowerChar (pyLowerChar n) = pyLowerChar n := by
  simp only [pyLowerChar]; split_ifs <;> omega

theorem pyLower_idem (l : List Nat) : pyLower (pyLower l) = pyLower l := by
  induction l with
  | nil => rfl
  | cons a as ih =>
    simp only [pyLower, List.map_cons] at ih ⊢
    rw [pyLowerChar_idem, ih]

/-- C10.  Every language code of `CODE_TO_NAME` behaves exactly like the
language name it maps to (under Python dict semantics the duplicated key
`"so"` maps to `"somali"`), and detection is invariant under lower-casing
the source-language identifier. -/
theorem C10_code_alias (t c name : List Nat) (h : (c, name) ∈ CODE_TO_NAME) :
    detect_is_source_language t c = detect_is_source_language t name ∧
    ∀ s : List Nat,
      detect_is_source_language t s = detect_is_source_language t (pyLower s) := by
  constructor
  · have hc := code_alias_consistent (c, name) h
    unfold detect_is_source_language
    rw [hc]
  · intro s
    unfold detect_is_source_language resolvedRanges nameFor
    rw [pyLower_idem]

/-- Witness for C10: `iw` behaves like `hebrew`, and `IW` like its
lower-casing `iw`, on a Hebrew text. -/
theorem C10_code_alias_witness :
    detect_is_source_language [0x05D0] (pyStr "iw")
        = detect_is_source_language [0x05D0] (pyStr "hebrew") ∧
    detect_is_source_language [0x05D0] (pyStr "IW")
        = detect_is_source_language [0x05D0] (pyLower (pyStr "IW")) := by
  have h := C10_code_alias [0x05D0] (pyStr "iw") (pyStr "hebrew") (by decide)
  exact ⟨h.1, h.2 (pyStr "IW")⟩

/-! ## Claim C8 — blank input is returned unchanged without a network call -/

/-- C8.  For every in-repository translator (`OpenRouterTranslator`,
`TranslatorsWrapper`, `MyMemoryWrapper`) and every empty or whitespace-only
input, `translate` returns the input unchanged and makes no network
request, whatever the network would have answered. -/
theorem C8_blank_input_identity (text : List Nat) (h : pyBlank text = true)
    (orNet : OROutcome) (net1 net2 : NetOutcome) :
    openrouterTranslate orNet text = (text, false) ∧
    translatorsWrapperTranslate net1 text = (.ok text, false) ∧
    myMemoryTranslate net2 text = (.ok text, false) := by
  unfold openrouterTranslate translatorsWrapperTranslate myMemoryTranslate
  simp [h]

/-- Witness for C8 at the one-space input. -/
theorem C8_blank_input_identity_witness :
    openrouterTranslate .requestError [32] = ([32], false) ∧
    translatorsWrapperTranslate (.ok []) [32] = (.ok [32], false) ∧
    myMemoryTranslate (.error ()) [32] = (.ok [32], false) :=
  C8_blank_input_identity [32] (by decide) .requestError (.ok []) (.error ())

/-! ## Claim C9 — single-instance lock (amended: there is none) -/

/-- Counterexample to C9 as stated: neither startup path (`main()` in the
hook build, `Listener.start` in the Wayland build, with or without devices
found) acquires any process-wide lock. -/
theorem C9_counterexample :
    StartupAction.acquireLock ∉ mainStartupActions ∧
    StartupAction.acquireLock ∉ listenerStartActions true ∧
    StartupAction.acquireLock ∉ listenerStartActions false := by
  decide

/-- C9 (amended).  Startup performs no lock acquisition at all: `main()`
registers the hotkey and waits unconditionally, so a second concurrent
instance is not detected or prevented; mutual exclusion exists only within
one process (the busy flag and cooldown). -/
theorem C9_no_lock :
    (∀ a ∈ mainStartupActions, a ≠ .acquireLock) ∧
    (∀ b : Bool, ∀ a ∈ listenerStartActions b, a ≠ .acquireLock) ∧
    StartupAction.registerHotkey ∈ mainStartupActions := by
  refine ⟨by decide, ?_, by decide⟩
  intro b
  cases b <;> decide

/-- Witness for C9 (amended) at a concrete startup action. -/
theorem C9_no_lock_witness : StartupAction.registerHotkey ≠ .acquireLock :=
  C9_no_lock.1 .registerHotkey (by decide)

/-! ## Claim C6 — re-entrancy guard and cooldown -/

/-- Invariant tying the `busy` flag to the number of running pipeline
threads. -/
def GuardInv (s : GuardState) : Prop :=
  s.active ≤ 1 ∧ (s.busy = true ↔ s.active = 1)

theorem guardStep_inv (hk : List (List Nat)) (s : GuardState) (e : LEvent)
    (h : GuardInv s) : GuardInv (guardStep hk s e) := by
  obtain ⟨h1, h2⟩ := h
  cases e with
  | finish =>
    refine ⟨by simp [guardStep]; omega, ?_⟩
    simp [guardStep]
    omega
  | key t c down =>
    by_cases hd : dispatches hk s (.key t c down) = true
    · have hbusy : s.busy = false := by
        unfold dispatches at hd
        simp only [Bool.and_eq_true, Bool.not_eq_true', Bool.or_eq_false_iff] at hd
        exact hd.2.2
      have ha : s.active = 0 := by
        by_contra hne
        have h1' : s.active = 1 := by omega
        rw [h2.mpr h1'] at hbusy
        simp at hbusy
      constructor
      · simp [guardStep, hd, ha]
      · simp [guardStep, hd, ha]
    · rw [Bool.not_eq_true] at hd
      constructor
      · simp [guardStep, hd]; exact h1
      · simp [guardStep, hd]; exact h2

theorem guardRun_inv (hk : List (List Nat)) (evs : List LEvent) :
    GuardInv (guardRun hk evs) := by
  suffices h : ∀ s, GuardInv s → GuardInv (evs.foldl (guardStep hk) s) from
    h initGuard ⟨by simp [initGuard], by simp [initGuard]⟩
  induction evs with
  | nil => exact fun s hs => hs
  | cons e es ih => exact fun s hs => ih _ (guardStep_inv hk s e hs)

/-- The trigger state of the hook build: `keyboard.add_hotkey` in
`src/main.py` invokes `translate_text` on every detection, and the only
guard is the `_is_translating` flag — the build keeps no trigger timestamp.
`lastTrigger` is a ghost field recording when the last accepted trigger
happened (so the cooldown property can be stated about it); `active` counts
running pipeline executions. -/
structure HookState where
  lastTrigger : ℚ
  busy : Bool
  active : Nat
  deriving DecidableEq, Repr

/-- Events of the hook build: a hotkey detection at some wall-clock time
(the `keyboard` library invoking `translate_text`), or the completion of a
run (the `finally` clearing `_is_translating`). -/
inductive HEvent
  | press (time : ℚ)
  | finish

/-- Does a hook-build event start a pipeline execution?  `translate_text`
checks only `_is_translating`; the detection time plays no part. -/
def hookDispatches (s : HookState) : HEvent → Bool
  | .press _ => !s.busy
  | .finish => false

/-- One step of the hook build's trigger handling. -/
def hookStep (s : HookState) : HEvent → HookState
  | .press t => if s.busy then s else ⟨t, true, s.active + 1⟩
  | .finish => ⟨s.lastTrigger, false, s.active - 1⟩

/-- The hook-build trigger state after a sequence of events from start. -/
def hookRun (evs : List HEvent) : HookState :=
  evs.foldl hookStep ⟨0, false, 0⟩

/-- Invariant tying the hook build's `_is_translating` flag to the number of
running pipeline executions. -/
def HookInv (s : HookState) : Prop :=
  s.active ≤ 1 ∧ (s.busy = true ↔ s.active = 1)

theorem hookStep_inv (s : HookState) (e : HEvent) (h : HookInv s) :
    HookInv (hookStep s e) := by
  obtain ⟨h1, h2⟩ := h
  cases e with
  | finish =>
    refine ⟨by simp [hookStep]; omega, ?_⟩
    simp [hookStep]
    omega
  | press t =>
    by_cases hb : s.busy = true
    · simp only [hookStep, hb, if_true]
      exact ⟨h1, h2⟩
    · rw [Bool.not_eq_true] at hb
      have ha : s.active = 0 := by
        by_contra hne
        have h1' : s.active = 1 := by omega
        rw [h2.mpr h1'] at hb
        simp at hb
      constructor
      · simp [hookStep, hb, ha]
      · simp [hookStep, hb, ha]

theorem hookRun_inv (evs : List HEvent) : HookInv (hookRun evs) := by
  suffices h : ∀ s, HookInv s → HookInv (evs.foldl hookStep s) from
    h ⟨0, false, 0⟩ ⟨by simp, by simp⟩
  induction evs with
  | nil => exact fun s hs => hs
  | cons e es ih => exact fun s hs => ih _ (hookStep_inv s e hs)

/-- Counterexample to C6 as stated: in the hook build, after a trigger
accepted at t = 0 whose run has completed, a hotkey detection at t = 1 —
within 1.5 s of the last accepted trigger — starts a new pipeline execution
(one active run after it): `main.py` keeps no trigger timestamp and
enforces no cooldown. -/
theorem C6_counterexample :
    (hookRun [.press 0, .finish]).busy = false ∧
    (1 : ℚ) - (hookRun [.press 0, .finish]).lastTrigger < 3/2 ∧
    hookDispatches (hookRun [.press 0, .finish]) (.press 1) = true ∧
    (hookRun [.press 0, .finish, .press 1]).active = 1 := by
  refine ⟨rfl, ?_, rfl, rfl⟩
  have h : (hookRun [.press 0, .finish]).lastTrigger = 0 := rfl
  rw [h]
  norm_num

/-- C6 (amended).  In both builds a detection while a pipeline run is in
flight is dropped, so along every event trace at most one pipeline run is
active at any time; the Wayland listener additionally drops a detection
within 1.5 s of the last accepted trigger, and the hook build's
`translate_text` returns immediately when its re-entrancy flag is set.
The 1.5 s cooldown exists only in the Wayland build: the hook build's
dispatch decision is exactly the negation of `busy`, independent of the
time since the last accepted trigger (`C6_counterexample`). -/
theorem C6_trigger_guard :
    (∀ (hk : List (List Nat)) (s : GuardState) (t : ℚ) (c : Nat) (d : Bool),
        s.busy = true ∨ t - s.lastTrigger < 3/2 →
        dispatches hk s (.key t c d) = false) ∧
    (∀ (hk : List (List Nat)) (evs : List LEvent),
        (guardRun hk evs).active ≤ 1) ∧
    (∀ env : MainEnv, translate_text env true = ⟨[], 0, [], none, false⟩) ∧
    (∀ (s : HookState) (t : ℚ), hookDispatches s (.press t) = !s.busy) ∧
    (∀ evs : List HEvent, (hookRun evs).active ≤ 1) := by
  refine ⟨?_, ?_, ?_, ?_, ?_⟩
  · intro hk s t c d h
    unfold dispatches
    rcases h with h | h
    · simp [h]
    · simp [h]
  · intro hk evs
    exact (guardRun_inv hk evs).1
  · intro env
    rfl
  · intro s t
    rfl
  · intro evs
    exact (hookRun_inv evs).1

/-- Witness for C6 (amended): a second Wayland chord 1.25 s after an
accepted one (state busy) is dropped, a two-press Wayland trace keeps at
most one active run, and a hook-build press while busy is dropped. -/
theorem C6_trigger_guard_witness :
    dispatches [[30]] ⟨[], 0, true, 1⟩ (.key 1 30 true) = false ∧
    (guardRun [[30]] [.key 1 30 true, .key (5/4) 30 true]).active ≤ 1 ∧
    hookDispatches ⟨0, true, 1⟩ (.press 1) = !true :=
  ⟨C6_trigger_guard.1 [[30]] ⟨[], 0, true, 1⟩ 1 30 true (Or.inl rfl),
   C6_trigger_guard.2.1 [[30]] [.key 1 30 true, .key (5/4) 30 true],
   C6_trigger_guard.2.2.2.1 ⟨0, true, 1⟩ 1⟩

/-! ## Claim C5 — no fresh capture ⇒ abort after the full timeout -/

theorem pollClipboard_blank (polls : Nat → List Nat) :
    ∀ (r i : Nat) (prev : List Nat),
      (∀ j, j < i + r → (pyStrip (polls j)).isEmpty = true) →
      (pyStrip prev).isEmpty = true →
      (pyStrip (pollClipboard polls prev i r).1).isEmpty = true ∧
      (pollClipboard polls prev i r).2 = i + r
  | 0, i, prev, _, hp => ⟨hp, rfl⟩
  | r + 1, i, prev, h, hp => by
    have hi : (pyStrip (polls i)).isEmpty = true := h i (by omega)
    have ih := pollClipboard_blank polls r (i + 1) (polls i)
      (fun j hj => h j (by omega)) hi
    simp only [pollClipboard, hi, if_true]
    exact ⟨ih.1, by rw [ih.2]; omega⟩

theorem pollWayland_empty (polls : Nat → List Nat) (orig : List Nat) :
    ∀ (r i : Nat) (prev : List Nat),
      (∀ j, j < i + r → polls j = []) → prev = [] →
      pollWayland polls orig prev i r = ([], i + r)
  | 0, i, prev, _, hp => by subst hp; rfl
  | r + 1, i, prev, h, hp => by
    have hi : polls i = [] := h i (by omega)
    have ih := pollWayland_empty polls orig r (i + 1) (polls i)
      (fun j hj => h j (by omega)) hi
    rw [hi] at ih
    simp only [pollWayland, hi, List.isEmpty_nil, Bool.not_true, Bool.false_and,
      Bool.false_eq_true, if_false, ih]
    exact congrArg (Prod.mk ([] : List Nat)) (by omega)

/-- C5 (amended).  In the hook build, if no clipboard poll ever yields a
non-whitespace value, the run consumes the full 10-poll timeout, makes no
translator call and pastes nothing.  The same holds in the Wayland build
when every `wl-paste` read is empty; the restriction is forced by
`C5_counterexample`: with a stale non-empty clipboard the Wayland build
proceeds to translate the stale text instead of aborting. -/
theorem C5_no_capture_no_provider (env : MainEnv) (wenv : WaylandEnv)
    (h : ∀ j, j < 10 → (pyStrip (env.polls j)).isEmpty = true)
    (hw : ∀ j, j < 20 → wenv.polls j = []) :
    (translate_text env false).calls = [] ∧
    (translate_text env false).pasted = none ∧
    (translate_text env false).pollsUsed = 10 ∧
    (waylandTranslate wenv).calls = [] ∧
    (waylandTranslate wenv).pasted = none ∧
    (waylandTranslate wenv).pollsUsed = 20 := by
  have hcap := pollClipboard_blank env.polls 10 0 [] (fun j hj => h j (by omega)) rfl
  have hmain : translate_text env false =
      ⟨(captureMain env.polls).1, (captureMain env.polls).2, [], none, false⟩ := by
    show (if (pyStrip (captureMain env.polls).1).isEmpty then
            (⟨(captureMain env.polls).1, (captureMain env.polls).2, [], none, false⟩ :
              RunResult)
          else _) = _
    rw [if_pos]
    exact hcap.1
  have hwcap := pollWayland_empty wenv.polls wenv.origClip 20 0 []
    (fun j hj => hw j (by omega)) rfl
  have hwl : waylandTranslate wenv = ⟨[], 20, [], none, false⟩ := by
    unfold waylandTranslate captureWayland
    rw [hwcap]
    simp
  refine ⟨by rw [hmain], by rw [hmain], ?_, by rw [hwl], by rw [hwl], by rw [hwl]⟩
  rw [hmain]
  show (pollClipboard env.polls [] 0 10).2 = 10
  rw [hcap.2]

/-- Definitional unfolding of a non-busy `translate_text` run. -/
theorem translate_text_eq (env : MainEnv) :
    translate_text env false =
      (let cap := captureMain env.polls
       if (pyStrip cap.1).isEmpty then ⟨cap.1, cap.2, [], none, false⟩
       else
         match routeTranslate env cap.1 with
         | (.ok translated, calls) =>
           if env.clipWriteOk then ⟨cap.1, cap.2, calls, some translated, false⟩
           else ⟨cap.1, cap.2, calls, none, false⟩
         | (.error _, calls) => ⟨cap.1, cap.2, calls, none, true⟩) := rfl

/-- Witness for C5: with an always-empty clipboard neither build reaches a
translator. -/
def envC5w : MainEnv :=
  { provider := .google, sourceLang := pyStr "hebrew", polls := fun _ => [],
    orForward := .requestError, orReverse := .requestError,
    gForward := .ok [], gReverse := .ok [], gAutoTgt := .ok [], gAutoSrc := .ok [],
    clipWriteOk := true }

def wenvC5w : WaylandEnv :=
  { provider := .google, sourceLang := pyStr "hebrew", origClip := [],
    polls := fun _ => [], orForward := .requestError, orReverse := .requestError,
    gForward := .ok [], gReverse := .ok [], gAutoTgt := .ok [], gAutoSrc := .ok [] }

theorem C5_no_capture_no_provider_witness :
    (translate_text envC5w false).calls = [] ∧
    (translate_text envC5w false).pollsUsed = 10 ∧
    (waylandTranslate wenvC5w).calls = [] := by
  have h := C5_no_capture_no_provider envC5w wenvC5w
    (fun j _ => rfl) (fun j _ => rfl)
  exact ⟨h.1, h.2.2.1, h.2.2.2.1⟩

/-- Counterexample to C5 as stated: in the Wayland build, when the
pre-existing clipboard value `"old"` never changes (no selection is ever
copied), the run does not abort — after the full 20-poll timeout it
translates the stale `"old"` and calls the reverse provider. -/
def envC5 : WaylandEnv :=
  { provider := .google, sourceLang := pyStr "hebrew", origClip := pyStr "old",
    polls := fun _ => pyStr "old", orForward := .requestError,
    orReverse := .requestError, gForward := .ok (pyStr "x"),
    gReverse := .ok (pyStr "x"), gAutoTgt := .ok [], gAutoSrc := .ok [] }

theorem C5_counterexample :
    (waylandTranslate envC5).calls = [.gRev] ∧
    (waylandTranslate envC5).captured = pyStr "old" ∧
    (waylandTranslate envC5).pollsUsed = 20 ∧
    (waylandTranslate envC5).pasted = some (pyStr "x") := by
  decide

/-! ## Claim C3 — provider errors (amended) -/

/-- C3 (amended).  OpenRouter network/API errors are caught inside
`translate` and the original text is returned; but an error raised by the
Google-branch provider propagates to `translate_text`'s top-level handler:
the run is logged and aborted without crashing, and nothing — not even the
original text — is pasted back.  `TranslatorsWrapper.translate` likewise
re-raises provider errors rather than returning the input. -/
theorem C3_provider_error_handling (env : MainEnv)
    (hprov : env.provider = .google)
    (hcap : (pyStrip (captureMain env.polls).1).isEmpty = false)
    (hdet : mainDetect (captureMain env.polls).1 env.sourceLang = .ok (some true))
    (hfwd : env.gForward = .error ()) :
    (translate_text env false).pasted = none ∧
    (translate_text env false).errorLogged = true ∧
    (translate_text env false).calls = [.gFwd] ∧
    (∀ text : List Nat, pyBlank text = false →
      openrouterTranslate .requestError text = (text, true) ∧
      openrouterTranslate .http401 text = (text, true) ∧
      openrouterTranslate .parseError text = (text, true)) ∧
    (∀ text : List Nat, pyBlank text = false →
      translatorsWrapperTranslate (.error ()) text = (.error .providerError, true)) := by
  have hroute : routeTranslate env (captureMain env.polls).1 =
      (.error .providerError, [.gFwd]) := by
    unfold routeTranslate
    rw [hdet, hprov, hfwd]
  have hrun : translate_text env false =
      ⟨(captureMain env.polls).1, (captureMain env.polls).2, [.gFwd], none, true⟩ := by
    rw [translate_text_eq]
    simp only [hcap, hroute, Bool.false_eq_true, if_false]
  refine ⟨by rw [hrun], by rw [hrun], by rw [hrun], ?_, ?_⟩
  · intro text ht
    unfold openrouterTranslate
    simp [ht]
  · intro text ht
    unfold translatorsWrapperTranslate
    simp [ht]

/-- A concrete run violating C3 as stated: Google provider, Hebrew
selection, network error in the forward translator — the pipeline logs the
error and pastes nothing, instead of pasting the original back. -/
def envC3 : MainEnv :=
  { provider := .google, sourceLang := pyStr "hebrew",
    polls := fun _ => [0x05E9, 0x05DC, 0x05D5, 0x05DD],
    orForward := .requestError, orReverse := .requestError,
    gForward := .error (), gReverse := .ok (pyStr "x"),
    gAutoTgt := .ok (pyStr "x"), gAutoSrc := .ok (pyStr "x"), clipWriteOk := true }

theorem C3_counterexample :
    (translate_text envC3 false).errorLogged = true ∧
    (translate_text envC3 false).pasted = none ∧
    (translate_text envC3 false).captured = [0x05E9, 0x05DC, 0x05D5, 0x05DD] := by
  decide

/-- Witness for C3 (amended) at the concrete run `envC3`. -/
theorem C3_provider_error_handling_witness :
    (translate_text envC3 false).pasted = none ∧
    openrouterTranslate .requestError (pyStr "hello") = (pyStr "hello", true) := by
  have h := C3_provider_error_handling envC3 rfl (by decide) (by decide) rfl
  exact ⟨h.1, (h.2.2.2.1 (pyStr "hello") (by decide)).1⟩

/-! ## Claim C4 — LLM no-op handling (amended: no secondary provider) -/

/-- C4 (amended).  With the `openrouter` provider the router only ever
invokes the two OpenRouter translator instances — there is no secondary
non-LLM provider to fall back to; when the forward call is a no-op the
router makes exactly one retry through the reverse instance and returns its
result, even if that result is itself the no-op text. -/
theorem C4_no_secondary_fallback (env : MainEnv) (text : List Nat)
    (d : Option Bool)
    (hprov : env.provider = .openrouter)
    (hdet : mainDetect text env.sourceLang = .ok d) :
    (∀ pc ∈ (routeTranslate env text).2, pc = .orFwd ∨ pc = .orRev) ∧
    (noopResult (openrouterTranslate env.orForward text).1 text = true →
      routeTranslate env text =
        (.ok (openrouterTranslate env.orReverse text).1, [.orFwd, .orRev])) := by
  have hroute : routeTranslate env text =
      (if noopResult (openrouterTranslate env.orForward text).1 text then
         (.ok (openrouterTranslate env.orReverse text).1, [.orFwd, .orRev])
       else (.ok (openrouterTranslate env.orForward text).1, [.orFwd])) := by
    unfold routeTranslate
    rw [hdet, hprov]
  by_cases hn : noopResult (openrouterTranslate env.orForward text).1 text = true
  · rw [hroute, if_pos hn]
    refine ⟨?_, fun _ => rfl⟩
    intro pc hpc
    simp only [List.mem_cons, List.not_mem_nil, or_false] at hpc
    tauto
  · rw [hroute, if_neg hn]
    refine ⟨?_, fun hcon => absurd hcon hn⟩
    intro pc hpc
    simp only [List.mem_cons, List.not_mem_nil, or_false] at hpc
    tauto

/-- A concrete run violating C4 as stated: both OpenRouter calls return the
input `"hello"` verbatim (a double no-op), yet no non-LLM provider is
invoked and the no-op text itself is pasted back. -/
def envC4 : MainEnv :=
  { provider := .openrouter, sourceLang := pyStr "hebrew",
    polls := fun _ => pyStr "hello", orForward := .success (pyStr "hello"),
    orReverse := .success (pyStr "hello"), gForward := .ok [], gReverse := .ok [],
    gAutoTgt := .ok [], gAutoSrc := .ok [], clipWriteOk := true }

theorem C4_counterexample :
    (translate_text envC4 false).calls = [.orFwd, .orRev] ∧
    (translate_text envC4 false).pasted = some (pyStr "hello") ∧
    (∀ pc ∈ (translate_text envC4 false).calls,
      pc ≠ .gFwd ∧ pc ≠ .gRev ∧ pc ≠ .gAutoT ∧ pc ≠ .gAutoS) := by
  decide

/-- Witness for C4 (amended) at the concrete run `envC4`. -/
theorem C4_no_secondary_fallback_witness :
    routeTranslate envC4 (pyStr "hello") =
      (.ok (openrouterTranslate envC4.orReverse (pyStr "hello")).1,
        [.orFwd, .orRev]) := by
  exact (C4_no_secondary_fallback envC4 (pyStr "hello") (some false) rfl
    (by decide)).2 (by decide)

/-! ## Claim C7 — AutoDetect retries exactly once, never loops -/

theorem noop_nonempty {r1 text : List Nat}
    (h : noopResult r1 text = true) (ht : (pyStrip text).isEmpty = false) :
    r1.isEmpty = false := by
  rcases r1 with _ | ⟨a, as⟩
  · exfalso
    unfold noopResult at h
    have heq : pyLower (pyStrip ([] : List Nat)) = pyLower (pyStrip text) :=
      eq_of_beq h
    have hlen := congrArg List.length heq
    simp only [pyLower, List.length_map] at hlen
    have hne : pyStrip text ≠ [] := by
      intro hnil
      rw [hnil] at ht
      simp at ht
    have : (pyStrip ([] : List Nat)).length = 0 := rfl
    rw [this] at hlen
    exact hne (List.length_eq_zero.mp hlen.symm)
  · rfl

/-- C7.  In an `AutoDetect` run (source language with no script entry,
Google branch) on a non-blank captured text: the router makes at most two
provider calls in total (so it cannot loop), and when the auto→target
result is a no-op of the input it retries exactly once, with the
auto→source translator (target swapped to the source language), returning
that second result. -/
theorem C7_autodetect_retry (env : MainEnv) (text : List Nat)
    (hprov : env.provider = .google)
    (hdet : mainDetect text env.sourceLang = .ok none)
    (htext : (pyStrip text).isEmpty = false) :
    (routeTranslate env text).2.length ≤ 2 ∧
    (∀ r1, env.gAutoTgt = .ok r1 → noopResult r1 text = true →
      (routeTranslate env text).2 = [.gAutoT, .gAutoS] ∧
      ∀ r2, env.gAutoSrc = .ok r2 →
        routeTranslate env text = (.ok r2, [.gAutoT, .gAutoS])) := by
  rcases hT : env.gAutoTgt with e | r1
  · refine ⟨by simp [routeTranslate, hdet, hprov, hT], ?_⟩
    intro r1 h1
    simp at h1
  · by_cases hc : (!r1.isEmpty && noopResult r1 text) = true
    · rcases hS : env.gAutoSrc with e2 | r2
      · refine ⟨by simp [routeTranslate, hdet, hprov, hT, hc, hS], ?_⟩
        intro r1' h1 hn
        refine ⟨by simp [routeTranslate, hdet, hprov, hT, hc, hS], ?_⟩
        intro r2' h2
        simp at h2
      · refine ⟨by simp [routeTranslate, hdet, hprov, hT, hc, hS], ?_⟩
        intro r1' h1 hn
        refine ⟨by simp [routeTranslate, hdet, hprov, hT, hc, hS], ?_⟩
        intro r2' h2
        injection h2 with h2
        subst h2
        simp [routeTranslate, hdet, hprov, hT, hc, hS]
    · refine ⟨by simp [routeTranslate, hdet, hprov, hT, hc], ?_⟩
      intro r1' h1 hn
      injection h1 with h1
      subst h1
      exfalso
      apply hc
      rw [noop_nonempty hn htext, hn]
      rfl

/-- Witness for C7: Spanish↔English with `"hola"` echoed by the auto→target
call; the router retries once with auto→source and returns its result. -/
def envC7 : MainEnv :=
  { provider := .google, sourceLang := pyStr "spanish",
    polls := fun _ => pyStr "hola", orForward := .requestError,
    orReverse := .requestError, gForward := .ok [], gReverse := .ok [],
    gAutoTgt := .ok (pyStr "hola"), gAutoSrc := .ok (pyStr "hello"),
    clipWriteOk := true }

theorem C7_autodetect_retry_witness :
    (routeTranslate envC7 (pyStr "hola")).2.length ≤ 2 ∧
    routeTranslate envC7 (pyStr "hola") = (.ok (pyStr "hello"), [.gAutoT, .gAutoS]) := by
  have h := C7_autodetect_retry envC7 (pyStr "hola") rfl (by decide) (by decide)
  exact ⟨h.1, ((h.2 (pyStr "hola") rfl (by decide)).2 (pyStr "hello") rfl)⟩
